import Mathlib

set_option maxRecDepth 8192

/-!
Verification of the PortDetective discovery-frame decoders and capture state.

The definitions below are a shallow embedding of the Python source:
`cdp_parser.py` (class CDPParser), `lldp_parser.py` (class LLDPParser),
`neighbor.py` (DiscoveryNeighbor), and `discovery_capture.py`
(DiscoveryCapture / MultiInterfaceDiscoveryCapture).  Byte strings are
modelled as `List Nat` (one entry per byte); Python dictionaries are
modelled as insertion-ordered association lists; `struct.unpack(">H", ..)`
and `(">I", ..)` become explicit big-endian arithmetic.  Out-of-range
indexing never occurs on guarded paths, so reads use `List.getD _ _ 0`.
-/

/-- Byte read `data[i]`; every use in the source is guarded so the
default 0 is never observable on the guarded paths. -/
def getB (d : List Nat) (i : Nat) : Nat := d.getD i 0

/-- Big-endian 16-bit read, `struct.unpack(">H", data[i:i+2])[0]`. -/
def be16 (d : List Nat) (i : Nat) : Nat := getB d i * 256 + getB d (i + 1)

/-- Big-endian 32-bit read, `struct.unpack(">I", data[i:i+4])[0]`. -/
def be32 (d : List Nat) (i : Nat) : Nat :=
  ((getB d i * 256 + getB d (i + 1)) * 256 + getB d (i + 2)) * 256 + getB d (i + 3)

/-- Python slice `data[i : i+n]` (shorter when the list runs out). -/
def pySlice (d : List Nat) (i n : Nat) : List Nat := (d.drop i).take n

/-- Lowercase hexadecimal digit character. -/
def hexDigit (n : Nat) : Char := Char.ofNat (if n < 10 then 48 + n else 87 + n)

/-- Python `f"{b:02x}"` for a byte value (two lowercase hex digits). -/
def hex02 (b : Nat) : String := String.mk [hexDigit (b / 16 % 16), hexDigit (b % 16)]

/-- Python `":".join(f"{b:02x}" for b in data)`: colon-separated hex bytes. -/
def macColonHex (l : List Nat) : String := String.intercalate ":" (l.map hex02)

/-- Python `".".join(str(b) for b in data)`: dotted-decimal rendering. -/
def dottedDecimal (l : List Nat) : String := String.intercalate "." (l.map toString)

/-- Python `":".join(f"{d[s+2g]:02x}{d[s+2g+1]:02x}" for g in range(8))`:
the 8-group colon-hex IPv6 rendering used by both LLDP address decoders,
reading 16 bytes starting at index `s`. -/
def ipv6ColonHex (d : List Nat) (s : Nat) : String :=
  String.intercalate ":"
    ((List.range 8).map fun g => hex02 (getB d (s + 2 * g)) ++ hex02 (getB d (s + 2 * g + 1)))

/-- Whether a byte is a UTF-8 continuation byte (0x80..0xBF). -/
def utf8Cont (b : Nat) : Bool := 128 ≤ b && b ≤ 191

/-- Admissible range of the first continuation byte after a 3- or 4-byte
UTF-8 lead, as enforced by CPython's strict decoder (excludes overlong
encodings and surrogates). -/
def utf8Cont1Ok (lead c : Nat) : Bool :=
  if lead = 224 then 160 ≤ c && c ≤ 191
  else if lead = 237 then 128 ≤ c && c ≤ 159
  else if lead = 240 then 144 ≤ c && c ≤ 191
  else if lead = 244 then 128 ≤ c && c ≤ 143
  else utf8Cont c

/-- Python `bytes.decode("utf-8", errors="ignore")`, producing the decoded
code points.  Ill-formed subsequences are skipped following CPython's
maximal-subpart convention: an invalid or truncated sequence is dropped and
decoding resumes at the first byte that broke it. -/
def decodeUtf8Ignore : List Nat → List Nat
  | [] => []
  | b :: rest =>
    if b < 128 then b :: decodeUtf8Ignore rest
    else if b < 194 then decodeUtf8Ignore rest
    else if b ≤ 223 then
      match rest with
      | [] => []
      | c1 :: r1 =>
        if utf8Cont c1 then ((b - 192) * 64 + (c1 - 128)) :: decodeUtf8Ignore r1
        else decodeUtf8Ignore (c1 :: r1)
    else if b ≤ 239 then
      match rest with
      | [] => []
      | c1 :: r1 =>
        if utf8Cont1Ok b c1 then
          match r1 with
          | [] => []
          | c2 :: r2 =>
            if utf8Cont c2 then
              ((b - 224) * 4096 + (c1 - 128) * 64 + (c2 - 128)) :: decodeUtf8Ignore r2
            else decodeUtf8Ignore (c2 :: r2)
        else decodeUtf8Ignore (c1 :: r1)
    else if b ≤ 244 then
      match rest with
      | [] => []
      | c1 :: r1 =>
        if utf8Cont1Ok b c1 then
          match r1 with
          | [] => []
          | c2 :: r2 =>
            if utf8Cont c2 then
              match r2 with
              | [] => []
              | c3 :: r3 =>
                if utf8Cont c3 then
                  ((b - 240) * 262144 + (c1 - 128) * 4096 + (c2 - 128) * 64 + (c3 - 128)) ::
                    decodeUtf8Ignore r3
                else decodeUtf8Ignore (c3 :: r3)
            else decodeUtf8Ignore (c2 :: r2)
        else decodeUtf8Ignore (c1 :: r1)
    else decodeUtf8Ignore rest

/-- Code points to a Lean string (all produced code points are valid
Unicode scalar values). -/
def cpsToString (l : List Nat) : String := String.mk (l.map Char.ofNat)

/-- Python `str.strip("\x00")` on a code-point list: removes leading and
trailing NUL characters. -/
def stripNuls (l : List Nat) : List Nat :=
  (((l.dropWhile fun c => c == 0).reverse.dropWhile fun c => c == 0)).reverse

/-- Python `data.decode("utf-8", errors="ignore").strip("\x00")`. -/
def pyDecodeStrip (d : List Nat) : String := cpsToString (stripNuls (decodeUtf8Ignore d))

/-- Python `data.decode("utf-8", errors="ignore")` without the NUL strip
(used for the LLDP VLAN name). -/
def pyDecode (d : List Nat) : String := cpsToString (decodeUtf8Ignore d)

theorem decode_ascii_example : pyDecodeStrip [83, 87, 49, 0] = "SW1" := by decide

/-- CDP neighbor record (`cdp_parser.py`, dataclass CDPNeighbor) with the
byte-derived and parameter fields; the wall-clock `last_seen` timestamp is
outside the embedding. -/
structure CDPNeighbor where
  device_id : String := ""
  ip_addresses : List String := []
  port_id : String := ""
  capabilities : List String := []
  software_version : String := ""
  platform : String := ""
  native_vlan : Option Nat := none
  voice_vlan : Option Nat := none
  duplex : Option String := none
  vtp_domain : String := ""
  mgmt_addresses : List String := []
  source_mac : String := ""
  local_interface : String := ""
  local_port_speed : String := ""
  ttl : Nat := 180
deriving Repr, DecidableEq

instance : Inhabited CDPNeighbor := ⟨{}⟩

namespace CDPParser

/-- CDPParser.parse_capabilities: capability bitmask to named flag list,
in the source's fixed order. -/
def parse_capabilities (v : Nat) : List String :=
  (if v &&& 1 ≠ 0 then ["Router"] else []) ++
  (if v &&& 2 ≠ 0 then ["Trans-Bridge"] else []) ++
  (if v &&& 4 ≠ 0 then ["Source-Bridge"] else []) ++
  (if v &&& 8 ≠ 0 then ["Switch"] else []) ++
  (if v &&& 16 ≠ 0 then ["Host"] else []) ++
  (if v &&& 32 ≠ 0 then ["IGMP"] else []) ++
  (if v &&& 64 ≠ 0 then ["Repeater"] else [])

/-- Loop body of CDPParser.parse_address: one iteration per advertised
address (the 1-byte protocol type is read but unused by the source), with
every truncation check of the source; only 4-byte addresses are rendered. -/
def parseAddressGo (d : List Nat) : Nat → Nat → List String
  | 0, _ => []
  | Nat.succ k, offset =>
    if offset + 2 > d.length then []
    else
      let proto_len := getB d (offset + 1)
      if offset + 2 + proto_len > d.length then []
      else
        let o2 := offset + 2 + proto_len
        if o2 + 2 > d.length then []
        else
          let addr_len := be16 d o2
          if o2 + 2 + addr_len > d.length then []
          else if addr_len = 4 then
            dottedDecimal (pySlice d (o2 + 2) 4) :: parseAddressGo d k (o2 + 2 + addr_len)
          else parseAddressGo d k (o2 + 2 + addr_len)

/-- CDPParser.parse_address: 4-byte count, then per-address sub-records. -/
def parse_address (d : List Nat) : List String :=
  if d.length < 4 then [] else parseAddressGo d (be32 d 0) 4

/-- Dispatch of one CDP TLV into the record: the if/elif chain in the TLV
walk of CDPParser.parse_raw_cdp (lines 294-330), applied to the payload
`tlv_data = raw_data[offset+4 : offset+tlv_len]`. -/
def applyTlv (n : CDPNeighbor) (t : Nat) (d : List Nat) : CDPNeighbor :=
  if t = 1 then { n with device_id := pyDecodeStrip d }
  else if t = 2 then { n with ip_addresses := parse_address d }
  else if t = 3 then { n with port_id := pyDecodeStrip d }
  else if t = 4 ∧ 4 ≤ d.length then { n with capabilities := parse_capabilities (be32 d 0) }
  else if t = 5 then { n with software_version := pyDecodeStrip d }
  else if t = 6 then { n with platform := pyDecodeStrip d }
  else if t = 10 ∧ 2 ≤ d.length then { n with native_vlan := some (be16 d 0) }
  else if t = 14 ∧ 2 ≤ d.length then
    if 3 ≤ d.length then { n with voice_vlan := some (be16 d 1) }
    else { n with voice_vlan := some (be16 d 0) }
  else if t = 11 ∧ 1 ≤ d.length then
    { n with duplex := some (if getB d 0 ≠ 0 then "Full" else "Half") }
  else if t = 9 then { n with vtp_domain := pyDecodeStrip d }
  else if t = 22 then { n with mgmt_addresses := parse_address d }
  else n

/-- Signature-scan predicate of header-location method 2 in
CDPParser.parse_raw_cdp (lines 247-267): version byte 1 or 2, nonzero TTL
byte (the `<= 255` bound of the source is kept), and — when 8 bytes are
readable — a first TLV of type DeviceID(1) with length in (4, 256).
A failed inner check continues the scan, so a hit is exactly this
conjunction. -/
def sigCond (d : List Nat) (i : Nat) : Bool :=
  (getB d i == 1 || getB d i == 2) && (getB d (i + 1) != 0) &&
    decide (getB d (i + 1) ≤ 255) &&
    (if i + 8 ≤ d.length then
      (be16 d (i + 4) == 1) && decide (4 < be16 d (i + 6)) && decide (be16 d (i + 6) < 256)
     else false)

/-- Header-location method 2: `for i in range(14, min(50, len(raw_data) - 4))`
returning the first scan hit. -/
def scanCdpStart (d : List Nat) : Option Nat :=
  (List.range' 14 (min 50 (d.length - 4) - 14)).find? (sigCond d)

/-- Value of the `cdp_start` variable of CDPParser.parse_raw_cdp after the
two header-location methods (`none` for the -1 failure sentinel):
method 1 fires on a frame of at least 26 bytes with the LLC pattern at
offset 14 and the Cisco OUI / CDP protocol id at offset 17; otherwise the
signature scan is used. -/
def find_cdp_start (d : List Nat) : Option Nat :=
  if 26 ≤ d.length ∧ pySlice d 14 3 = [170, 170, 3] ∧ pySlice d 17 3 = [0, 0, 12] ∧
      pySlice d 20 2 = [32, 0] then
    some 22
  else scanCdpStart d

/-- TLV walk of CDPParser.parse_raw_cdp (lines 284-332).  The source loop
advances by `tlv_len ≥ 4` bytes per iteration, so any fuel above
`d.length` is exhaustive; fuel only makes the recursion structural. -/
def walkTlvs (d : List Nat) : Nat → Nat → CDPNeighbor → CDPNeighbor
  | 0, _, n => n
  | Nat.succ fuel, offset, n =>
    if offset + 4 ≤ d.length then
      let t := be16 d offset
      let len := be16 d (offset + 2)
      if len < 4 ∨ offset + len > d.length then n
      else walkTlvs d fuel (offset + len) (applyTlv n t (pySlice d (offset + 4) (len - 4)))
    else n

/-- CDPParser.parse_raw_cdp: locate the header, read version (unused) and
TTL, skip the checksum, walk the TLV chain.  Returns `none` exactly when
no header is found or the frame ends before `cdp_start + 4`. -/
def parse_raw_cdp (d : List Nat) (source_mac : String) : Option CDPNeighbor :=
  match find_cdp_start d with
  | none => none
  | some s =>
    if d.length < s + 4 then none
    else some (walkTlvs d (d.length + 1) (s + 4)
      { source_mac := source_mac, ttl := getB d (s + 1) })

end CDPParser

/-- LLDP neighbor record (`lldp_parser.py`, dataclass LLDPNeighbor) with the
byte-derived and parameter fields; the wall-clock `last_seen` timestamp is
outside the embedding. -/
structure LLDPNeighbor where
  chassis_id : String := ""
  port_id : String := ""
  port_description : String := ""
  system_name : String := ""
  system_description : String := ""
  capabilities : List String := []
  enabled_capabilities : List String := []
  mgmt_addresses : List String := []
  vlan_id : Option Nat := none
  vlan_name : String := ""
  source_mac : String := ""
  local_interface : String := ""
  local_port_speed : String := ""
  ttl : Nat := 120
deriving Repr, DecidableEq

instance : Inhabited LLDPNeighbor := ⟨{}⟩

namespace LLDPParser

/-- LLDPParser.parse_capabilities: 11-flag bitmask decode, in the source's
fixed order. -/
def parse_capabilities (v : Nat) : List String :=
  (if v &&& 1 ≠ 0 then ["Other"] else []) ++
  (if v &&& 2 ≠ 0 then ["Repeater"] else []) ++
  (if v &&& 4 ≠ 0 then ["Bridge"] else []) ++
  (if v &&& 8 ≠ 0 then ["WLAN AP"] else []) ++
  (if v &&& 16 ≠ 0 then ["Router"] else []) ++
  (if v &&& 32 ≠ 0 then ["Telephone"] else []) ++
  (if v &&& 64 ≠ 0 then ["DOCSIS"] else []) ++
  (if v &&& 128 ≠ 0 then ["Station"] else []) ++
  (if v &&& 256 ≠ 0 then ["C-VLAN"] else []) ++
  (if v &&& 512 ≠ 0 then ["S-VLAN"] else []) ++
  (if v &&& 1024 ≠ 0 then ["TPMR"] else [])

/-- LLDPParser.parse_chassis_id: subtype 4 (MAC, exactly 6 bytes) gives
colon-hex; subtype 5 (network address) gives dotted decimal for family 1
with at least 5 bytes or 8-group colon-hex for family 2 with at least 17
bytes; every other case falls through to the best-effort UTF-8 decode with
trailing NULs stripped (the hex fallback of the source is dead code, since
decoding with errors="ignore" never raises). -/
def parse_chassis_id (subtype : Nat) (d : List Nat) : String :=
  if subtype = 4 ∧ d.length = 6 then macColonHex d
  else if subtype = 5 ∧ 2 ≤ d.length then
    if getB d 0 = 1 ∧ 5 ≤ d.length then dottedDecimal (pySlice d 1 4)
    else if getB d 0 = 2 ∧ 17 ≤ d.length then ipv6ColonHex d 1
    else pyDecodeStrip d
  else pyDecodeStrip d

/-- LLDPParser.parse_port_id: subtype 3 (MAC, exactly 6 bytes) gives
colon-hex; subtype 4 (network address) gives dotted decimal only for
family 1 with at least 5 bytes — the source has no IPv6 branch here, so
every other case (family 2 included) falls through to the best-effort
UTF-8 decode with trailing NULs stripped. -/
def parse_port_id (subtype : Nat) (d : List Nat) : String :=
  if subtype = 3 ∧ d.length = 6 then macColonHex d
  else if subtype = 4 ∧ 2 ≤ d.length then
    if getB d 0 = 1 ∧ 5 ≤ d.length then dottedDecimal (pySlice d 1 4)
    else pyDecodeStrip d
  else pyDecodeStrip d

/-- LLDPParser.parse_mgmt_address: 1-byte address length, 1-byte subtype,
then `addr_len - 1` address bytes; subtype 1 with at least 4 bytes gives
dotted decimal, subtype 2 with at least 16 bytes gives colon-hex. -/
def parse_mgmt_address (d : List Nat) : Option String :=
  if d.length < 3 then none
  else
    let addr_len := getB d 0
    if addr_len < 2 ∨ d.length < addr_len + 1 then none
    else
      let addr_data := pySlice d 2 (addr_len - 1)
      if getB d 1 = 1 ∧ 4 ≤ addr_data.length then some (dottedDecimal (addr_data.take 4))
      else if getB d 1 = 2 ∧ 16 ≤ addr_data.length then some (ipv6ColonHex addr_data 0)
      else none

/-- IEEE 802.1 organizationally-specific dispatch inside the TLV walk of
LLDPParser.parse_raw_lldp (lines 349-367): subtype 1 sets the port VLAN id;
subtype 3 sets the VLAN name when the declared name length fits, and writes
the VLAN id only when the stored `vlan_id` is Python-falsy
(`if not neighbor.vlan_id`, i.e. `None` or `0`). -/
def applyOrgTlv (n : LLDPNeighbor) (oui : List Nat) (subtype : Nat) (org : List Nat) :
    LLDPNeighbor :=
  if oui = [0, 128, 194] then
    if subtype = 1 ∧ 2 ≤ org.length then { n with vlan_id := some (be16 org 0) }
    else if subtype = 3 ∧ 3 ≤ org.length then
      let vid := be16 org 0
      let name_len := getB org 2
      let n1 :=
        if 3 + name_len ≤ org.length then { n with vlan_name := pyDecode (pySlice org 3 name_len) }
        else n
      if n1.vlan_id = none ∨ n1.vlan_id = some 0 then { n1 with vlan_id := some vid } else n1
    else n
  else n

/-- Dispatch of one LLDP TLV into the record: the if/elif chain of
LLDPParser.parse_raw_lldp (lines 307-367), applied to the payload slice;
`tlvLen` is the declared TLV length (equal to the payload length on every
call site, as the walk checks the bound first). -/
def applyTlv (n : LLDPNeighbor) (t tlvLen : Nat) (d : List Nat) : LLDPNeighbor :=
  if t = 1 ∧ 2 ≤ tlvLen then { n with chassis_id := parse_chassis_id (getB d 0) (d.drop 1) }
  else if t = 2 ∧ 2 ≤ tlvLen then { n with port_id := parse_port_id (getB d 0) (d.drop 1) }
  else if t = 3 ∧ 2 ≤ tlvLen then { n with ttl := be16 d 0 }
  else if t = 4 then { n with port_description := pyDecodeStrip d }
  else if t = 5 then { n with system_name := pyDecodeStrip d }
  else if t = 6 then { n with system_description := pyDecodeStrip d }
  else if t = 7 ∧ 4 ≤ tlvLen then
    { n with capabilities := parse_capabilities (be16 d 0),
             enabled_capabilities := parse_capabilities (be16 d 2) }
  else if t = 8 ∧ 3 ≤ tlvLen then
    match parse_mgmt_address d with
    | some a => { n with mgmt_addresses := n.mgmt_addresses ++ [a] }
    | none => n
  else if t = 127 ∧ 4 ≤ tlvLen then applyOrgTlv n (d.take 3) (getB d 3) (d.drop 4)
  else n

/-- TLV walk of LLDPParser.parse_raw_lldp (lines 292-369): 16-bit header
with 7-bit type and 9-bit length; type 0 ends the walk; a declared length
past the frame end ends the walk.  The loop advances by at least 2 bytes
per iteration, so any fuel above `d.length` is exhaustive. -/
def walkTlvs (d : List Nat) : Nat → Nat → LLDPNeighbor → LLDPNeighbor
  | 0, _, n => n
  | Nat.succ fuel, offset, n =>
    if offset + 2 ≤ d.length then
      let hdr := be16 d offset
      let t := (hdr >>> 9) &&& 127
      let len := hdr &&& 511
      if t = 0 then n
      else if offset + 2 + len > d.length then n
      else walkTlvs d fuel (offset + 2 + len) (applyTlv n t len (pySlice d (offset + 2) len))
    else n

/-- LLDPParser.parse_raw_lldp: requires a 14-byte Ethernet header with
EtherType 0x88CC, then walks TLVs from offset 14. -/
def parse_raw_lldp (d : List Nat) (source_mac : String) : Option LLDPNeighbor :=
  if d.length < 14 then none
  else if be16 d 12 ≠ 35020 then none
  else some (walkTlvs d (d.length + 1) 14 { source_mac := source_mac })

end LLDPParser

/-- Unified neighbor record (`neighbor.py`, dataclass DiscoveryNeighbor)
minus the wall-clock timestamp and the `_original` back-reference. -/
structure DiscoveryNeighbor where
  protocol : String := ""
  device_id : String := ""
  port_id : String := ""
  platform : String := ""
  capabilities : List String := []
  ip_addresses : List String := []
  mgmt_addresses : List String := []
  software_version : String := ""
  native_vlan : Option Nat := none
  voice_vlan : Option Nat := none
  vlan_name : String := ""
  duplex : Option String := none
  vtp_domain : String := ""
  port_description : String := ""
  source_mac : String := ""
  local_interface : String := ""
  local_port_speed : String := ""
  ttl : Nat := 120
deriving Repr, DecidableEq

instance : Inhabited DiscoveryNeighbor := ⟨{}⟩

/-- DiscoveryNeighbor.from_lldp (`neighbor.py` lines 79-114): the LLDP half
of the normalizer. -/
def DiscoveryNeighbor.from_lldp (l : LLDPNeighbor) : DiscoveryNeighbor :=
  { protocol := "LLDP"
    device_id := if l.system_name ≠ "" then l.system_name else l.chassis_id
    port_id := l.port_id
    platform :=
      if l.system_description ≠ "" then ((l.system_description.splitOn "\n").headD "").take 50
      else ""
    capabilities := if l.enabled_capabilities ≠ [] then l.enabled_capabilities else l.capabilities
    ip_addresses := []
    mgmt_addresses := l.mgmt_addresses
    software_version := l.system_description
    native_vlan := l.vlan_id
    vlan_name := l.vlan_name
    port_description := l.port_description
    source_mac := l.source_mac
    local_interface := l.local_interface
    local_port_speed := l.local_port_speed
    ttl := l.ttl }

/-- The dedup key string built by DiscoveryCapture._update_neighbor and
MultiInterfaceDiscoveryCapture._on_neighbor_discovered:
`f"{protocol}:{local_interface}:{device_id}:{port_id}"`. -/
def neighborKey (n : DiscoveryNeighbor) : String :=
  n.protocol ++ ":" ++ n.local_interface ++ ":" ++ n.device_id ++ ":" ++ n.port_id

/-- Python `dict[k] = v` on an insertion-ordered association list: an
existing key keeps its position and gets the new value; a new key is
appended. -/
def dictInsert {α : Type} : List (String × α) → String → α → List (String × α)
  | [], k, v => [(k, v)]
  | (k0, v0) :: t, k, v =>
    if k0 = k then (k, v) :: t else (k0, v0) :: dictInsert t k v

/-- Python `dict.get(k)` on the association-list model. -/
def dictLookup {α : Type} : List (String × α) → String → Option α
  | [], _ => none
  | (k0, v0) :: t, k => if k0 = k then some v0 else dictLookup t k

/-- Python `k in dict` on the association-list model. -/
def dictHasKey {α : Type} (m : List (String × α)) (k : String) : Bool :=
  (dictLookup m k).isSome

/-- DiscoveryCapture._update_neighbor on the local neighbor map (the
callback delivery is outside the map state). -/
def update_neighbor (m : List (String × DiscoveryNeighbor)) (n : DiscoveryNeighbor) :
    List (String × DiscoveryNeighbor) :=
  dictInsert m (neighborKey n) n

/-- MultiInterfaceDiscoveryCapture._on_neighbor_discovered on the aggregate
map: the key is computed from the record, the interface speed is stamped
onto it (`get_interface_speed` is the abstract `speed` parameter), and the
stamped record is stored under the key. -/
def on_neighbor_discovered (speed : String → String)
    (m : List (String × DiscoveryNeighbor)) (n : DiscoveryNeighbor) :
    List (String × DiscoveryNeighbor) :=
  dictInsert m (neighborKey n) { n with local_port_speed := speed n.local_interface }

/-- DiscoveryCapture state restricted to its neighbor map (the interface
name, thread handle, queue and callback do not enter any map claim). -/
structure DiscoveryCaptureState where
  neighbors : List (String × DiscoveryNeighbor) := []
deriving Repr, DecidableEq

/-- DiscoveryCapture.get_neighbors: `list(self._neighbors.values())`. -/
def get_neighbors (c : DiscoveryCaptureState) : List DiscoveryNeighbor :=
  c.neighbors.map Prod.snd

/-- DiscoveryCapture.clear_neighbors: `self._neighbors.clear()`. -/
def clear_neighbors (c : DiscoveryCaptureState) : DiscoveryCaptureState :=
  { c with neighbors := [] }

/-- MultiInterfaceDiscoveryCapture state restricted to the aggregate map
and the managed captures, keyed by interface name. -/
structure MultiInterfaceState where
  all_neighbors : List (String × DiscoveryNeighbor) := []
  captures : List (String × DiscoveryCaptureState) := []
deriving Repr, DecidableEq

/-- MultiInterfaceDiscoveryCapture.get_all_neighbors:
`list(self._all_neighbors.values())`. -/
def get_all_neighbors (s : MultiInterfaceState) : List DiscoveryNeighbor :=
  s.all_neighbors.map Prod.snd

/-- MultiInterfaceDiscoveryCapture.clear_all_neighbors: clears the
aggregate map and calls `clear_neighbors` on every managed capture. -/
def clear_all_neighbors (s : MultiInterfaceState) : MultiInterfaceState :=
  { s with all_neighbors := [],
           captures := s.captures.map fun p => (p.1, clear_neighbors p.2) }

/-- DiscoveryCapture._detect_protocol (`discovery_capture.py` lines
74-108). -/
def detect_protocol (d : List Nat) : String :=
  if d.length < 14 then "UNKNOWN"
  else if d.take 6 = [1, 0, 12, 204, 204, 204] then "CDP"
  else if d.take 6 = [1, 128, 194, 0, 0, 14] ∨ d.take 6 = [1, 128, 194, 0, 0, 3] ∨
      d.take 6 = [1, 128, 194, 0, 0, 0] then "LLDP"
  else if (getB d 12) <<< 8 ||| getB d 13 = 35020 then "LLDP"
  else "UNKNOWN"

/-- Modelled from the spec's classifier sentence: CDP on the fixed CDP
multicast destination MAC; LLDP on any of the three LLDP multicast MACs or
EtherType 0x88CC; Unknown otherwise, and Unknown for frames shorter than
14 bytes.  To be compared against `detect_protocol`. -/
def detect_protocol_spec (d : List Nat) : String :=
  if d.length < 14 then "UNKNOWN"
  else if d.take 6 = [1, 0, 12, 204, 204, 204] then "CDP"
  else if d.take 6 = [1, 128, 194, 0, 0, 14] ∨ d.take 6 = [1, 128, 194, 0, 0, 3] ∨
      d.take 6 = [1, 128, 194, 0, 0, 0] ∨ (getB d 12) <<< 8 ||| getB d 13 = 35020 then "LLDP"
  else "UNKNOWN"

/-- C3: the frame classifier returns CDP exactly on the CDP multicast
destination MAC, LLDP on the three LLDP multicast MACs or EtherType
0x88CC (the CDP MAC taking priority), Unknown otherwise, and Unknown
without error on every input shorter than 14 bytes. -/
theorem detect_protocol_correct (d : List Nat) :
    detect_protocol d = detect_protocol_spec d := by
  unfold detect_protocol detect_protocol_spec
  split
  · rfl
  · split
    · rfl
    · by_cases h1 : d.take 6 = [1, 128, 194, 0, 0, 14] ∨ d.take 6 = [1, 128, 194, 0, 0, 3] ∨
          d.take 6 = [1, 128, 194, 0, 0, 0]
      · rw [if_pos h1, if_pos (by tauto)]
      · rw [if_neg h1]
        by_cases h2 : (getB d 12) <<< 8 ||| getB d 13 = 35020
        · rw [if_pos h2, if_pos (by tauto)]
        · rw [if_neg h2, if_neg (by tauto)]

/-- C5: the LLDP half of the normalizer — device_id falls back from
system_name to chassis_id; platform is the first line of the system
description truncated to 50 characters (empty for an empty description);
capabilities prefer enabled_capabilities; native_vlan mirrors vlan_id;
vlan_name and port_description carry over; ip_addresses is empty. -/
theorem from_lldp_correct (l : LLDPNeighbor) :
    (DiscoveryNeighbor.from_lldp l).device_id =
        (if l.system_name = "" then l.chassis_id else l.system_name) ∧
    (DiscoveryNeighbor.from_lldp l).platform =
        (if l.system_description = "" then ""
         else ((l.system_description.splitOn "\n").headD "").take 50) ∧
    (DiscoveryNeighbor.from_lldp l).capabilities =
        (if l.enabled_capabilities = [] then l.capabilities else l.enabled_capabilities) ∧
    (DiscoveryNeighbor.from_lldp l).native_vlan = l.vlan_id ∧
    (DiscoveryNeighbor.from_lldp l).vlan_name = l.vlan_name ∧
    (DiscoveryNeighbor.from_lldp l).port_description = l.port_description ∧
    (DiscoveryNeighbor.from_lldp l).ip_addresses = [] := by
  refine ⟨?_, ?_, ?_, rfl, rfl, rfl, rfl⟩
  · simp only [DiscoveryNeighbor.from_lldp]
    by_cases h : l.system_name = "" <;> simp [h]
  · simp only [DiscoveryNeighbor.from_lldp]
    by_cases h : l.system_description = "" <;> simp [h]
  · simp only [DiscoveryNeighbor.from_lldp]
    by_cases h : l.enabled_capabilities = [] <;> simp [h]

/-- C7: the CDP VoiceVlan TLV (type 0x000E) takes its 16-bit VLAN id from
payload offset 1 when the payload has at least 3 bytes (skipping the
1-byte flag), from offset 0 when the payload has exactly 2 bytes, and the
3-byte payload [0x01, 0x00, 0x0A] decodes voice_vlan = 10. -/
theorem cdp_voice_vlan_correct (n : CDPNeighbor) (d : List Nat) :
    (3 ≤ d.length → (CDPParser.applyTlv n 14 d).voice_vlan = some (be16 d 1)) ∧
    (d.length = 2 → (CDPParser.applyTlv n 14 d).voice_vlan = some (be16 d 0)) ∧
    (CDPParser.applyTlv n 14 [1, 0, 10]).voice_vlan = some 10 := by
  refine ⟨fun h3 => ?_, fun h2 => ?_, ?_⟩
  · simp [CDPParser.applyTlv, h3, Nat.le_of_succ_le h3]
  · simp [CDPParser.applyTlv, h2]
  · simp [CDPParser.applyTlv, be16, getB]

/-- Witness for C7 at the payloads [1, 0, 10] (length 3) and [0, 10]
(length 2). -/
theorem cdp_voice_vlan_witness :
    (3 ≤ ([1, 0, 10] : List Nat).length ∧
      (CDPParser.applyTlv {} 14 [1, 0, 10]).voice_vlan = some (be16 [1, 0, 10] 1)) ∧
    (([0, 10] : List Nat).length = 2 ∧
      (CDPParser.applyTlv {} 14 [0, 10]).voice_vlan = some (be16 [0, 10] 0)) :=
  ⟨⟨by decide, (cdp_voice_vlan_correct {} [1, 0, 10]).1 (by decide)⟩,
   ⟨by decide, (cdp_voice_vlan_correct {} [0, 10]).2.1 (by decide)⟩⟩

theorem dictLookup_dictInsert {α : Type} (m : List (String × α)) (k : String) (v : α) :
    dictLookup (dictInsert m k v) k = some v := by
  induction m with
  | nil => simp [dictInsert, dictLookup]
  | cons p t ih =>
    obtain ⟨k0, v0⟩ := p
    by_cases h : k0 = k
    · simp [dictInsert, dictLookup, h]
    · simp [dictInsert, dictLookup, h, ih]

theorem length_dictInsert_of_hasKey {α : Type} (m : List (String × α)) (k : String) (v : α)
    (h : dictHasKey m k) : (dictInsert m k v).length = m.length := by
  induction m with
  | nil => simp [dictHasKey, dictLookup] at h
  | cons p t ih =>
    obtain ⟨k0, v0⟩ := p
    by_cases hk : k0 = k
    · simp [dictInsert, hk]
    · simp only [dictHasKey, dictLookup, hk, if_false] at h
      simp [dictInsert, hk, ih h]

theorem hasKey_dictInsert {α : Type} (m : List (String × α)) (k : String) (v : α) :
    dictHasKey (dictInsert m k v) k := by
  simp [dictHasKey, dictLookup_dictInsert]

/-- C4: two records with the same NeighborKey overwrite in place, both in a
LinkCapture's local map (`_update_neighbor`) and in the coordinator's
aggregate map (`_on_neighbor_discovered`, which also stamps the interface
speed onto the stored record): after the second insertion the key maps to
the second record and the number of entries is unchanged. -/
theorem neighbor_key_overwrites (m : List (String × DiscoveryNeighbor))
    (a b : DiscoveryNeighbor) (speed : String → String)
    (hp : a.protocol = b.protocol) (hi : a.local_interface = b.local_interface)
    (hd : a.device_id = b.device_id) (hq : a.port_id = b.port_id) :
    (dictLookup (update_neighbor (update_neighbor m a) b) (neighborKey b) = some b ∧
      (update_neighbor (update_neighbor m a) b).length = (update_neighbor m a).length) ∧
    (dictLookup (on_neighbor_discovered speed (on_neighbor_discovered speed m a) b)
        (neighborKey b) = some { b with local_port_speed := speed b.local_interface } ∧
      (on_neighbor_discovered speed (on_neighbor_discovered speed m a) b).length =
        (on_neighbor_discovered speed m a).length) := by
  have hkey : neighborKey a = neighborKey b := by
    simp [neighborKey, hp, hi, hd, hq]
  refine ⟨⟨dictLookup_dictInsert _ _ _, ?_⟩, ⟨dictLookup_dictInsert _ _ _, ?_⟩⟩
  · apply length_dictInsert_of_hasKey
    rw [← hkey]
    exact hasKey_dictInsert _ _ _
  · apply length_dictInsert_of_hasKey
    rw [← hkey]
    exact hasKey_dictInsert _ _ _

/-- Concrete record used by the C4 and C10 witnesses. -/
def wNeighbor : DiscoveryNeighbor :=
  { protocol := "CDP", device_id := "SW1", port_id := "Gi0/1", local_interface := "eth0" }

/-- Concrete second observation of the same neighbor key. -/
def wNeighbor2 : DiscoveryNeighbor :=
  { protocol := "CDP", device_id := "SW1", port_id := "Gi0/1", local_interface := "eth0",
    platform := "cisco WS-C2960" }

/-- Concrete speed lookup for the C4 witness. -/
def wSpeed : String → String := fun _ => "1G"

/-- Witness for C4: inserting `wNeighbor` then `wNeighbor2` (same key) into
the empty map leaves one entry holding the second record. -/
theorem neighbor_key_overwrites_witness :
    (dictLookup (update_neighbor (update_neighbor [] wNeighbor) wNeighbor2)
        (neighborKey wNeighbor2) = some wNeighbor2 ∧
      (update_neighbor (update_neighbor [] wNeighbor) wNeighbor2).length =
        (update_neighbor [] wNeighbor).length) ∧
    (dictLookup (on_neighbor_discovered wSpeed (on_neighbor_discovered wSpeed [] wNeighbor)
        wNeighbor2) (neighborKey wNeighbor2) =
        some { wNeighbor2 with local_port_speed := wSpeed wNeighbor2.local_interface } ∧
      (on_neighbor_discovered wSpeed (on_neighbor_discovered wSpeed [] wNeighbor)
        wNeighbor2).length =
        (on_neighbor_discovered wSpeed [] wNeighbor).length) :=
  neighbor_key_overwrites [] wNeighbor wNeighbor2 wSpeed rfl rfl rfl rfl

/-- C10: clear_all_neighbors empties the aggregate map and every managed
capture's local map, whatever neighbor observations preceded it:
afterwards get_all_neighbors is empty and each managed capture's
get_neighbors is empty. -/
theorem clear_all_neighbors_empties (s : MultiInterfaceState) :
    get_all_neighbors (clear_all_neighbors s) = [] ∧
    ∀ p ∈ (clear_all_neighbors s).captures, get_neighbors p.2 = [] := by
  constructor
  · simp [get_all_neighbors, clear_all_neighbors]
  · intro p hp
    simp only [clear_all_neighbors, List.mem_map] at hp
    obtain ⟨q, _, rfl⟩ := hp
    simp [get_neighbors, clear_neighbors]

/-- Concrete capture state for the C10 witness. -/
def wCapState : DiscoveryCaptureState :=
  { neighbors := [(neighborKey wNeighbor, wNeighbor)] }

/-- Concrete coordinator state for the C10 witness: one aggregate entry and
one managed capture holding one neighbor. -/
def wMultiState : MultiInterfaceState :=
  { all_neighbors := [(neighborKey wNeighbor, wNeighbor)],
    captures := [("eth0", wCapState)] }

/-- Witness for C10 at `wMultiState`, instantiating the member hypothesis at
its single managed capture. -/
theorem clear_all_neighbors_witness :
    get_all_neighbors (clear_all_neighbors wMultiState) = [] ∧
    get_neighbors ("eth0", clear_neighbors wCapState).2 = [] := by
  have h := clear_all_neighbors_empties wMultiState
  refine ⟨h.1, h.2 ("eth0", clear_neighbors wCapState) ?_⟩
  simp [wMultiState, clear_all_neighbors]

/-- C1: in both TLV walks, a TLV whose declared length runs past the end of
the frame stops the walk at once, returning exactly the record accumulated
from the TLVs before it; and whenever a header is found the decoders
return that partial record (`some`), never `none`, so no failure escapes
the decode call. -/
theorem tlv_overrun_stops_walk :
    (∀ (d : List Nat) (fuel offset : Nat) (n : CDPNeighbor),
      offset + 4 ≤ d.length → d.length < offset + be16 d (offset + 2) →
      CDPParser.walkTlvs d (fuel + 1) offset n = n) ∧
    (∀ (d : List Nat) (fuel offset : Nat) (n : LLDPNeighbor),
      offset + 2 ≤ d.length → (be16 d offset >>> 9) &&& 127 ≠ 0 →
      d.length < offset + 2 + (be16 d offset &&& 511) →
      LLDPParser.walkTlvs d (fuel + 1) offset n = n) ∧
    (∀ (d : List Nat) (src : String) (s : Nat),
      CDPParser.find_cdp_start d = some s → s + 4 ≤ d.length →
      (CDPParser.parse_raw_cdp d src).isSome) ∧
    (∀ (d : List Nat) (src : String),
      14 ≤ d.length → be16 d 12 = 35020 → (LLDPParser.parse_raw_lldp d src).isSome) := by
  refine ⟨?_, ?_, ?_, ?_⟩
  · intro d fuel offset n h4 hover
    simp only [CDPParser.walkTlvs, if_pos h4]
    rw [if_pos (Or.inr hover)]
  · intro d fuel offset n h2 ht hover
    simp only [LLDPParser.walkTlvs, if_pos h2]
    rw [if_neg ht, if_pos hover]
  · intro d src s hfind hlen
    simp only [CDPParser.parse_raw_cdp, hfind]
    rw [if_neg (by omega)]
    simp
  · intro d src hlen het
    simp only [LLDPParser.parse_raw_lldp]
    rw [if_neg (by omega), if_neg (by simp [het])]
    simp

/-- Concrete CDP frame for the C1 and C2 witnesses: standard 802.3 +
LLC/SNAP framing, CDP version 2, TTL 180, one DeviceID TLV "SW1". -/
def wCdpFrame : List Nat :=
  [1, 0, 12, 204, 204, 204, 0, 0, 0, 0, 0, 0, 0, 32,
   170, 170, 3, 0, 0, 12, 32, 0,
   2, 180, 0, 0,
   0, 1, 0, 7, 83, 87, 49]

/-- Concrete minimal LLDP frame (EtherType 0x88CC, then an End TLV). -/
def wLldpFrame : List Nat :=
  [0, 0, 0, 0, 0, 0, 0, 0, 0, 0, 0, 0, 136, 204, 0, 0]

/-- Witness for C1: an oversized CDP TLV [type 1, length 100] on a 4-byte
frame and an oversized LLDP TLV [type 1, length 9] on a 2-byte frame both
return the accumulated record unchanged, and both decoders return a record
on the concrete frames. -/
theorem tlv_overrun_stops_walk_witness :
    CDPParser.walkTlvs [0, 1, 0, 100] 1 0 {} = {} ∧
    LLDPParser.walkTlvs [2, 9] 1 0 {} = {} ∧
    (CDPParser.parse_raw_cdp wCdpFrame "").isSome ∧
    (LLDPParser.parse_raw_lldp wLldpFrame "").isSome := by
  have h := tlv_overrun_stops_walk
  refine ⟨h.1 [0, 1, 0, 100] 0 0 {} (by decide) (by decide),
          h.2.1 [2, 9] 0 0 {} (by decide) (by decide) (by decide),
          h.2.2.1 wCdpFrame "" 22 (by decide) (by decide),
          h.2.2.2 wLldpFrame "" (by decide) (by decide)⟩

/-- A 22-byte frame that ends right after the LLC/SNAP + CDP protocol
pattern: the claimed fixed-offset rule fires on the byte patterns alone,
but the source requires at least 26 bytes before accepting offset 22. -/
def wFrame22 : List Nat :=
  [0, 0, 0, 0, 0, 0, 0, 0, 0, 0, 0, 0, 0, 0, 170, 170, 3, 0, 0, 12, 32, 0]

/-- Counterexample for C2: `wFrame22` carries the LLC pattern at offset 14
and the Cisco-OUI/CDP pattern at offset 17, so the claim says the header
offset is 22; the source instead finds no header (its fixed-offset tier
also requires `len(raw_data) >= 26`, and the signature scan fails). -/
theorem cdp_header_location_counterexample :
    pySlice wFrame22 14 3 = [170, 170, 3] ∧ pySlice wFrame22 17 3 = [0, 0, 12] ∧
    pySlice wFrame22 20 2 = [32, 0] ∧ CDPParser.find_cdp_start wFrame22 ≠ some 22 ∧
    CDPParser.find_cdp_start wFrame22 = none := by decide

/-- Modelled from the spec's signature-scan sentence: a hit at offset `i`
is a version byte 1 or 2, a nonzero TTL byte, and — where the 2-byte
type/length pair at `i+4`/`i+6` exists — type DeviceID(1) with length
strictly between 4 and 256.  To be compared with `CDPParser.sigCond`. -/
def cdpScanHit (d : List Nat) (i : Nat) : Bool :=
  (getB d i == 1 || getB d i == 2) && (getB d (i + 1) != 0) &&
    (if i + 8 ≤ d.length then
      (be16 d (i + 4) == 1) && decide (4 < be16 d (i + 6)) && decide (be16 d (i + 6) < 256)
     else false)

theorem getB_lt_256 {d : List Nat} (hb : ∀ b ∈ d, b < 256) (i : Nat) : getB d i < 256 := by
  unfold getB
  rcases Nat.lt_or_ge i d.length with h | h
  · rw [List.getD_eq_getElem?_getD, List.getElem?_eq_getElem h]
    exact hb _ (List.getElem_mem h)
  · rw [List.getD_eq_getElem?_getD, List.getElem?_eq_none h]
    decide

theorem sigCond_eq_scanHit {d : List Nat} (hb : ∀ b ∈ d, b < 256) (i : Nat) :
    CDPParser.sigCond d i = cdpScanHit d i := by
  unfold CDPParser.sigCond cdpScanHit
  have h255 : decide (getB d (i + 1) ≤ 255) = true := by
    simp only [decide_eq_true_eq]
    exact Nat.lt_succ_iff.mp (getB_lt_256 hb (i + 1))
  rw [h255, Bool.and_true]

theorem find?_congr_on {α : Type} :
    ∀ (l : List α) (p q : α → Bool), (∀ x ∈ l, p x = q x) → l.find? p = l.find? q
  | [], _, _, _ => rfl
  | a :: t, p, q, h => by
    rw [List.find?_cons, List.find?_cons, h a (List.mem_cons_self a t)]
    cases hq : q a
    · exact find?_congr_on t p q fun x hx => h x (List.mem_cons_of_mem a hx)
    · rfl

theorem scanCdpStart_eq_spec (d : List Nat) (hb : ∀ b ∈ d, b < 256) :
    CDPParser.scanCdpStart d = (List.range' 14 36).find? (cdpScanHit d) := by
  unfold CDPParser.scanCdpStart
  rw [find?_congr_on _ _ _ fun i _ => sigCond_eq_scanHit hb i]
  have hk36 : min 50 (d.length - 4) - 14 ≤ 36 := by omega
  have hsplit : List.range' 14 36 =
      List.range' 14 (min 50 (d.length - 4) - 14) ++
        List.range' (14 + (min 50 (d.length - 4) - 14)) (36 - (min 50 (d.length - 4) - 14)) := by
    rw [List.range'_append_1]
    congr 1
    omega
  rw [hsplit, List.find?_append]
  have htail :
      (List.range' (14 + (min 50 (d.length - 4) - 14))
        (36 - (min 50 (d.length - 4) - 14))).find? (cdpScanHit d) = none := by
    rw [List.find?_eq_none]
    intro i hi
    rw [List.mem_range'_1] at hi
    have h8 : ¬ (i + 8 ≤ d.length) := by omega
    simp [cdpScanHit, h8]
  rw [htail, Option.or_none]

/-- C2 as amended: the fixed-offset tier returns 22 only when the frame
also has at least 26 bytes; otherwise the decoder falls back to the
first signature-scan hit over offsets 14..49; and when both tiers fail the
decoder returns no record rather than raising. -/
theorem cdp_header_location (d : List Nat) (src : String) (hb : ∀ b ∈ d, b < 256) :
    (26 ≤ d.length → pySlice d 14 3 = [170, 170, 3] → pySlice d 17 3 = [0, 0, 12] →
      pySlice d 20 2 = [32, 0] → CDPParser.find_cdp_start d = some 22) ∧
    (¬(26 ≤ d.length ∧ pySlice d 14 3 = [170, 170, 3] ∧ pySlice d 17 3 = [0, 0, 12] ∧
        pySlice d 20 2 = [32, 0]) →
      CDPParser.find_cdp_start d = (List.range' 14 36).find? (cdpScanHit d)) ∧
    (CDPParser.find_cdp_start d = none → CDPParser.parse_raw_cdp d src = none) := by
  refine ⟨fun h26 h1 h2 h3 => ?_, fun hneg => ?_, fun hnone => ?_⟩
  · unfold CDPParser.find_cdp_start
    rw [if_pos ⟨h26, h1, h2, h3⟩]
  · unfold CDPParser.find_cdp_start
    rw [if_neg hneg]
    exact scanCdpStart_eq_spec d hb
  · unfold CDPParser.parse_raw_cdp
    rw [hnone]

/-- A 25-byte frame with no LLC/SNAP framing whose CDP header is found by
the signature scan at offset 14. -/
def wCdpFrameScan : List Nat :=
  [1, 0, 12, 204, 204, 204, 0, 0, 0, 0, 0, 0, 0, 11,
   2, 180, 0, 0,
   0, 1, 0, 7, 83, 87, 49]

/-- Witness for C2 (amended): the fixed-offset tier on `wCdpFrame`, the
signature-scan tier on `wCdpFrameScan`, and the both-tiers-fail case on
`wFrame22`. -/
theorem cdp_header_location_witness :
    CDPParser.find_cdp_start wCdpFrame = some 22 ∧
    CDPParser.find_cdp_start wCdpFrameScan =
      (List.range' 14 36).find? (cdpScanHit wCdpFrameScan) ∧
    CDPParser.parse_raw_cdp wFrame22 "" = none :=
  ⟨(cdp_header_location wCdpFrame "" (by decide)).1 (by decide) (by decide) (by decide)
      (by decide),
   (cdp_header_location wCdpFrameScan "" (by decide)).2.1 (by decide),
   (cdp_header_location wFrame22 "" (by decide)).2.2 (by decide)⟩

/-- PortId NetworkAddress payload with address family 2 (IPv6) and sixteen
0x41 address bytes. -/
def wPortIdData : List Nat := 2 :: List.replicate 16 65

/-- Counterexample for C6: on a PortId TLV with subtype NetworkAddress(4),
family 2 and 16 address bytes, the source has no IPv6 branch, so port_id
is the best-effort UTF-8 decode of the whole subtype payload (family byte
included), not the claimed colon-hex rendering of the address bytes. -/
theorem lldp_port_id_ipv6_counterexample :
    LLDPParser.parse_port_id 4 wPortIdData = "\x02AAAAAAAAAAAAAAAA" ∧
    LLDPParser.parse_port_id 4 wPortIdData ≠ ipv6ColonHex wPortIdData 1 ∧
    LLDPParser.parse_port_id 4 wPortIdData ≠ "4141:4141:4141:4141:4141:4141:4141:4141" := by
  decide

/-- C6 as amended: the IPv6 colon-hex rendering of a NetworkAddress with
family 2 applies to the ChassisId decoder (subtype 5, at least 17 payload
bytes); the PortId decoder (subtype 4) has no IPv6 branch and falls back
to the best-effort UTF-8 decode of the subtype payload. -/
theorem lldp_network_address_rendering (d : List Nat) :
    (getB d 0 = 2 → 17 ≤ d.length → LLDPParser.parse_chassis_id 5 d = ipv6ColonHex d 1) ∧
    (getB d 0 = 2 → 2 ≤ d.length → LLDPParser.parse_port_id 4 d = pyDecodeStrip d) := by
  constructor
  · intro hfam hlen
    unfold LLDPParser.parse_chassis_id
    rw [if_neg (by simp), if_pos ⟨rfl, by omega⟩, if_neg (by simp [hfam]),
      if_pos ⟨hfam, hlen⟩]
  · intro hfam hlen
    unfold LLDPParser.parse_port_id
    rw [if_neg (by simp), if_pos ⟨rfl, hlen⟩, if_neg (by simp [hfam])]

/-- Witness for C6 (amended) at `wPortIdData`: the ChassisId decoder
renders the IPv6 colon-hex groups, the PortId decoder falls back to the
UTF-8 decode. -/
theorem lldp_network_address_rendering_witness :
    LLDPParser.parse_chassis_id 5 wPortIdData = ipv6ColonHex wPortIdData 1 ∧
    LLDPParser.parse_port_id 4 wPortIdData = pyDecodeStrip wPortIdData :=
  ⟨(lldp_network_address_rendering wPortIdData).1 (by decide) (by decide),
   (lldp_network_address_rendering wPortIdData).2 (by decide) (by decide)⟩

/-- LLDP frame carrying an IEEE 802.1 Port VLAN ID TLV with VLAN 0 followed
by a VLAN Name TLV (VLAN 10, name "X") and an End TLV. -/
def wLldpVlanFrame : List Nat :=
  [0, 0, 0, 0, 0, 0, 0, 0, 0, 0, 0, 0, 136, 204,
   254, 6, 0, 128, 194, 1, 0, 0,
   254, 8, 0, 128, 194, 3, 0, 10, 1, 88,
   0, 0]

/-- The same frame truncated after the Port VLAN ID TLV (End TLV follows),
showing the state the walk is in before the VLAN Name TLV. -/
def wLldpVlanFramePre : List Nat :=
  [0, 0, 0, 0, 0, 0, 0, 0, 0, 0, 0, 0, 136, 204,
   254, 6, 0, 128, 194, 1, 0, 0,
   0, 0]

/-- Counterexample for C8: the subtype-1 Port VLAN ID TLV sets vlan_id to 0
(shown by the truncated frame), which an earlier subtype-1 TLV did set;
yet on the full frame the subtype-3 VLAN Name TLV overwrites it to 10,
because the source's guard `if not neighbor.vlan_id` treats 0 as unset. -/
theorem lldp_vlan_overwrite_counterexample :
    Option.map LLDPNeighbor.vlan_id (LLDPParser.parse_raw_lldp wLldpVlanFramePre "") =
      some (some 0) ∧
    Option.map LLDPNeighbor.vlan_id (LLDPParser.parse_raw_lldp wLldpVlanFrame "") =
      some (some 10) ∧
    Option.map LLDPNeighbor.vlan_name (LLDPParser.parse_raw_lldp wLldpVlanFrame "") =
      some "X" := by decide

/-- C8 as amended: an IEEE 802.1 subtype-3 (VLAN Name) TLV with a 2-byte
VLAN ID, a 1-byte name length and that many name bytes sets vlan_name to
the UTF-8 decoding of the name bytes, and writes its VLAN ID only when the
stored vlan_id is unset (None) or zero. -/
theorem lldp_vlan_name_tlv (n : LLDPNeighbor) (org : List Nat)
    (h3 : 3 ≤ org.length) (hname : 3 + getB org 2 ≤ org.length) :
    (LLDPParser.applyTlv n 127 (4 + org.length) (0 :: 128 :: 194 :: 3 :: org)).vlan_name =
      pyDecode (pySlice org 3 (getB org 2)) ∧
    (LLDPParser.applyTlv n 127 (4 + org.length) (0 :: 128 :: 194 :: 3 :: org)).vlan_id =
      (if n.vlan_id = none ∨ n.vlan_id = some 0 then some (be16 org 0) else n.vlan_id) := by
  have happ : LLDPParser.applyTlv n 127 (4 + org.length) (0 :: 128 :: 194 :: 3 :: org) =
      LLDPParser.applyOrgTlv n [0, 128, 194] 3 org := by
    unfold LLDPParser.applyTlv
    rw [if_neg (by simp), if_neg (by simp), if_neg (by simp), if_neg (by simp),
      if_neg (by simp), if_neg (by simp), if_neg (by simp), if_neg (by simp),
      if_pos ⟨rfl, by omega⟩]
    simp [getB]
  rw [happ]
  unfold LLDPParser.applyOrgTlv
  rw [if_pos rfl, if_neg (by simp), if_pos ⟨rfl, h3⟩]
  simp only [hname, if_pos, if_true]
  by_cases hv : n.vlan_id = none ∨ n.vlan_id = some 0 <;> simp [hv]

/-- Record with vlan_id already set to 0 by a subtype-1 TLV. -/
def wVlanRecord : LLDPNeighbor := { vlan_id := some 0 }

/-- Org payload of a VLAN Name TLV: VLAN 10, name length 1, name "X". -/
def wVlanOrg : List Nat := [0, 10, 1, 88]

/-- Witness for C8 (amended) at `wVlanRecord` and `wVlanOrg`. -/
theorem lldp_vlan_name_tlv_witness :
    (LLDPParser.applyTlv wVlanRecord 127 (4 + wVlanOrg.length)
        (0 :: 128 :: 194 :: 3 :: wVlanOrg)).vlan_name =
      pyDecode (pySlice wVlanOrg 3 (getB wVlanOrg 2)) ∧
    (LLDPParser.applyTlv wVlanRecord 127 (4 + wVlanOrg.length)
        (0 :: 128 :: 194 :: 3 :: wVlanOrg)).vlan_id =
      (if wVlanRecord.vlan_id = none ∨ wVlanRecord.vlan_id = some 0
       then some (be16 wVlanOrg 0) else wVlanRecord.vlan_id) :=
  lldp_vlan_name_tlv wVlanRecord wVlanOrg (by decide) (by decide)
